import Mathlib

/-!
Verification development for the simpBack TTS (text-to-speech) pipeline.

JavaScript strings are modelled as lists of characters (`JStr`), database
rows as a function from request id to an optional record, and the external
collaborators (ElevenLabs synthesis, S3 storage) as per-attempt outcome
environments.  Each Lean definition mirrors one function of the source:
the Express controllers (`submitTTSRequest`, `downloadTTSAudio`,
`updateTTSRequestStatus`, `getTTSRequestStatus`), the service layer
(`processTTSRequest`, `saveTTSAudioToS3`, `updateTTSRequestInDB`), the Bull
queue processor (`queueProcess`) and the socket emission sites.
-/

namespace SimpBack

/-- A JavaScript string, modelled as its list of characters. -/
abbrev JStr := List Char

/-- Coerce a Lean string literal to the `JStr` model. -/
def jstr (s : String) : JStr := s.data

/-- Fuel-driven digit expansion; one unit of fuel per digit suffices. -/
def natCharsAux : Nat → Nat → JStr
  | 0, _ => []
  | fuel + 1, n =>
    if n < 10 then [Nat.digitChar n]
    else natCharsAux fuel (n / 10) ++ [Nat.digitChar (n % 10)]

/-- Decimal rendering of a nonnegative JS number, as produced by template
interpolation such as `` `creator-room-${creatorId}` ``. -/
def natChars (n : Nat) : JStr := natCharsAux (n + 1) n

lemma natCharsAux_congr : ∀ f1 f2 n : Nat, n < f1 → n < f2 →
    natCharsAux f1 n = natCharsAux f2 n := by
  intro f1
  induction f1 with
  | zero => omega
  | succ f ih =>
    intro f2 n h1 h2
    match f2, h2 with
    | g + 1, h2 =>
      rw [natCharsAux, natCharsAux]
      by_cases hn : n < 10
      · rw [if_pos hn, if_pos hn]
      · rw [if_neg hn, if_neg hn, ih g (n / 10) (by omega) (by
          have := Nat.div_lt_self (show 0 < n by omega) (show 1 < 10 by omega)
          omega)]

/-- The defining recursion of `natChars`. -/
lemma natChars_eq_rec (n : Nat) :
    natChars n = if n < 10 then [Nat.digitChar n]
      else natChars (n / 10) ++ [Nat.digitChar (n % 10)] := by
  rw [natChars, natCharsAux]
  by_cases hn : n < 10
  · rw [if_pos hn, if_pos hn]
  · rw [if_neg hn, if_neg hn, natChars,
      natCharsAux_congr n (n / 10 + 1) (n / 10)
        (Nat.div_lt_self (by omega) (by omega)) (by omega)]

/-- The ten decimal digit characters. -/
def decDigits : JStr := jstr "0123456789"

lemma digitChar_mem_decDigits : ∀ m < 10, Nat.digitChar m ∈ decDigits := by decide

lemma digitChar_inj_lt : ∀ a < 10, ∀ b < 10, Nat.digitChar a = Nat.digitChar b → a = b := by
  decide

lemma natChars_lt {n : Nat} (h : n < 10) : natChars n = [Nat.digitChar n] := by
  rw [natChars_eq_rec, if_pos h]

lemma natChars_ge {n : Nat} (h : ¬ n < 10) :
    natChars n = natChars (n / 10) ++ [Nat.digitChar (n % 10)] := by
  rw [natChars_eq_rec, if_neg h]

lemma natChars_ne_nil (n : Nat) : natChars n ≠ [] := by
  by_cases h : n < 10
  · rw [natChars_lt h]; simp
  · rw [natChars_ge h]; simp

lemma natChars_mem_decDigits (n : Nat) : ∀ c ∈ natChars n, c ∈ decDigits := by
  induction n using Nat.strong_induction_on with
  | _ n ih =>
    by_cases h : n < 10
    · rw [natChars_lt h]
      intro c hc
      simp only [List.mem_singleton] at hc
      exact hc ▸ digitChar_mem_decDigits n h
    · rw [natChars_ge h]
      intro c hc
      rcases List.mem_append.mp hc with h1 | h2
      · exact ih (n / 10) (Nat.div_lt_self (by omega) (by omega)) c h1
      · simp only [List.mem_singleton] at h2
        exact h2 ▸ digitChar_mem_decDigits (n % 10) (Nat.mod_lt _ (by omega))

lemma natChars_injective : Function.Injective natChars := by
  intro m n
  induction m using Nat.strong_induction_on generalizing n with
  | _ m ih =>
    intro h
    by_cases hm : m < 10 <;> by_cases hn : n < 10
    · rw [natChars_lt hm, natChars_lt hn] at h
      simp only [List.cons.injEq] at h
      exact digitChar_inj_lt m hm n hn h.1
    · rw [natChars_lt hm, natChars_ge hn] at h
      exfalso
      rcases List.exists_cons_of_ne_nil (natChars_ne_nil (n / 10)) with ⟨a, l, hl⟩
      rw [hl] at h
      rcases l with _ | ⟨b, l⟩ <;> simp_all
    · rw [natChars_ge hm, natChars_lt hn] at h
      exfalso
      rcases List.exists_cons_of_ne_nil (natChars_ne_nil (m / 10)) with ⟨a, l, hl⟩
      rw [hl] at h
      rcases l with _ | ⟨b, l⟩ <;> simp_all
    · rw [natChars_ge hm, natChars_ge hn] at h
      have h' := List.append_inj h (by
        have := congrArg List.length h
        simpa using this)
      have hdiv : m / 10 = n / 10 :=
        ih (m / 10) (Nat.div_lt_self (by omega) (by omega)) h'.1
      have hmod : m % 10 = n % 10 := by
        have h2 := h'.2
        simp only [List.cons.injEq] at h2
        exact digitChar_inj_lt _ (Nat.mod_lt _ (by omega)) _ (Nat.mod_lt _ (by omega)) h2.1
      omega

/-! ## Data model

One row of the `tts_requests` table, together with its companion identity
tables (`users`, `creators`) and the Bull queue contents, forms the system
state `DB`.  The `processed_at` column is modelled as the boolean flag
`processedAt` (set by the service's `UPDATE ... processed_at = NOW() ...`);
its actual timestamp value is irrelevant to every claim. -/

/-- A row of the `tts_requests` table. -/
structure TTSRec where
  userId : Nat
  creatorId : Nat
  message : Option String
  voice : String
  status : String
  audioUrl : Option JStr
  processedAt : Bool
deriving Repr, DecidableEq

/-- The queue wire shape `{ttsRequestId, message, voice, useS3}`. -/
structure JobData where
  ttsRequestId : Nat
  message : String
  voice : String
  useS3 : Bool
deriving Repr, DecidableEq

/-- Bull backoff options `{type, delay}`. -/
structure BackoffOpts where
  type : String
  delay : Nat
deriving Repr, DecidableEq

/-- Bull job options `{attempts, backoff}`. -/
structure JobOptions where
  attempts : Nat
  backoff : BackoffOpts
deriving Repr, DecidableEq

/-- A job as recorded in the queue: payload plus options. -/
structure QueuedJob where
  data : JobData
  opts : JobOptions
deriving Repr, DecidableEq

/-- The system state: the `tts_requests` table (by id), the identity
tables, the id the next `INSERT` will receive, and the Bull queue. -/
structure DB where
  requests : Nat → Option TTSRec
  users : Nat → Bool
  creators : Nat → Bool
  nextId : Nat
  queue : List QueuedJob

/-- SQL `UPDATE tts_requests SET ... WHERE id = ?`: rewrite the row with the
given id, if present, leaving everything else unchanged. -/
def dbSet (db : DB) (id : Nat) (f : TTSRec → TTSRec) : DB :=
  { db with requests := fun i => if i = id then (db.requests i).map f else db.requests i }

/-- SQL `UPDATE tts_requests SET status = ?, audio_url = ? WHERE id = ?`
(the controller's status-update endpoint and the queue's success path). -/
def setStatusUrl (db : DB) (id : Nat) (status : String) (url : Option JStr) : DB :=
  dbSet db id fun r => { r with status := status, audioUrl := url }

/-- SQL `UPDATE tts_requests SET status = ? WHERE id = ?` (the queue's failure
path: `status = "failed"`, audio_url untouched). -/
def setStatusOnly (db : DB) (id : Nat) (status : String) : DB :=
  dbSet db id fun r => { r with status := status }

/-- service/ttsService.js `updateTTSRequestInDB`:
`UPDATE tts_requests SET status = ?, processed_at = NOW(), audio_url = ? WHERE id = ?`. -/
def updateTTSRequestInDB (db : DB) (ttsRequestId : Nat) (status : String)
    (audioUrl : Option JStr) : DB :=
  dbSet db ttsRequestId fun r =>
    { r with status := status, audioUrl := audioUrl, processedAt := true }

/-- The `validStatuses` list of the status-update endpoint. -/
def validStatuses : List String := ["pending", "processing", "completed", "failed"]

/-- JS `audioUrl || null`: an absent or empty (falsy) string becomes null. -/
def orNull (u : Option JStr) : Option JStr :=
  match u with
  | none => none
  | some s => if s = [] then none else some s

/-! ## Artifact store: URL construction and parsing -/

/-- service/ttsService.js: `` `${ttsRequestId}-${uuidv4()}.mp3` ``. -/
def uniqueFileName (ttsRequestId : Nat) (uuid : JStr) : JStr :=
  natChars ttsRequestId ++ jstr "-" ++ uuid ++ jstr ".mp3"

/-- The S3 object key `` `tts_audios/${uniqueFileName}` ``. -/
def s3Key (ttsRequestId : Nat) (uuid : JStr) : JStr :=
  jstr "tts_audios/" ++ uniqueFileName ttsRequestId uuid

/-- The stored URL
`` `https://${AWS_S3_BUCKET_NAME}.s3.${AWS_REGION}.amazonaws.com/tts_audios/${uniqueFileName}` ``. -/
def s3Url (bucket region : JStr) (ttsRequestId : Nat) (uuid : JStr) : JStr :=
  jstr "https://" ++ bucket ++ jstr ".s3." ++ region ++ jstr ".amazonaws.com/" ++
    s3Key ttsRequestId uuid

/-- JS `new URL(u)`, step 1: the text after the `scheme://` introducer. -/
def urlRest (url : JStr) : JStr := (url.dropWhile (· != ':')).drop 3

/-- Characters that end the host portion of a URL. -/
def hostEnd (c : Char) : Bool := c == '/' || c == '?' || c == '#'

/-- JS `new URL(u).host` for a scheme-qualified URL: the text between
`scheme://` and the first `/`, `?` or `#`. -/
def urlHost (url : JStr) : JStr := (urlRest url).takeWhile (fun c => !hostEnd c)

/-- JS `new URL(u).pathname`: from the first `/` after the host up to a query
or fragment delimiter. -/
def urlPathname (url : JStr) : JStr :=
  ((urlRest url).dropWhile (fun c => !hostEnd c)).takeWhile (fun c => c != '?' && c != '#')

/-- JS `host.split('.')[0]`: the first dot-separated label. -/
def firstLabel (host : JStr) : JStr := host.takeWhile (· != '.')

/-- Value of a hexadecimal digit character. -/
def hexVal (c : Char) : Nat :=
  if '0' ≤ c ∧ c ≤ '9' then c.toNat - '0'.toNat
  else if 'a' ≤ c ∧ c ≤ 'f' then c.toNat - 'a'.toNat + 10
  else if 'A' ≤ c ∧ c ≤ 'F' then c.toNat - 'A'.toNat + 10
  else 0

/-- Is `c` a hexadecimal digit? -/
def isHexDigit (c : Char) : Bool :=
  ('0' ≤ c && c ≤ '9') || ('a' ≤ c && c ≤ 'f') || ('A' ≤ c && c ≤ 'F')

/-- JS `decodeURIComponent`, modelled for single-byte escapes: a well-formed
`%hh` sequence decodes to the escaped character, and all other characters
pass through.  (Real `decodeURIComponent` throws on a malformed escape and
decodes multi-byte UTF-8 sequences; every theorem below applies this
function only to percent-free text, where it agrees with JS.) -/
def jsDecodeURIComponent : JStr → JStr
  | [] => []
  | c :: rest =>
    if c = '%' then
      match rest with
      | a :: b :: rest2 =>
        if isHexDigit a && isHexDigit b then
          Char.ofNat (16 * hexVal a + hexVal b) :: jsDecodeURIComponent rest2
        else c :: a :: b :: jsDecodeURIComponent rest2
      | [a] => [c, a]
      | [] => [c]
    else c :: jsDecodeURIComponent rest

/-- The download path's extraction of the S3 bucket from a stored URL:
`s3Url.host.split('.')[0]`. -/
def parsedBucket (url : JStr) : JStr := firstLabel (urlHost url)

/-- The download path's extraction of the S3 key from a stored URL:
`decodeURIComponent(s3Url.pathname.slice(1))`. -/
def parsedKey (url : JStr) : JStr := jsDecodeURIComponent ((urlPathname url).drop 1)

/-! ## Service layer (service/ttsService.js)

The two external calls of one worker attempt — the ElevenLabs synthesis
request and the S3 `PutObject` — are modelled by a per-attempt outcome
environment `AttemptEnv`; the random `uuidv4()` suffix of the attempt is
part of the environment as well. -/

/-- Audio bytes returned by the synthesis call. -/
abbrev Audio := List Nat

/-- Outcomes of one worker attempt's external calls. -/
structure AttemptEnv where
  /-- Outcome of the ElevenLabs POST: audio bytes, or the thrown error message. -/
  synth : Except String Audio
  /-- Whether the S3 `PutObject` succeeds. -/
  s3ok : Bool
  /-- The attempt's `uuidv4()` value. -/
  uuid : JStr

/-- Source `validateAndMapVoice`: `'default'` (case-insensitively) maps to the
default voice id, anything else passes through. -/
def validateAndMapVoice (voice : String) : String :=
  if voice.toLower = "default" then "pqHfZKP75CvOlQylNhV4" else voice

/-- Source `generateTTS`: maps the voice and performs the synthesis call, whose
outcome is given by the environment. -/
def generateTTS (env : AttemptEnv) (_text : String) (voice : String) : Except String Audio :=
  let _validVoice := validateAndMapVoice voice
  env.synth

/-- Source `saveTTSAudioToS3`: `PutObject` under `tts_audios/<id>-<uuid>.mp3`,
returning the https URL on success and the wrapped error otherwise. -/
def saveTTSAudioToS3 (bucket region : JStr) (env : AttemptEnv) (ttsRequestId : Nat)
    (_audioData : Audio) : Except String JStr :=
  if env.s3ok then .ok (s3Url bucket region ttsRequestId env.uuid)
  else .error "Failed to upload TTS audio to S3."

/-- Source `processTTSRequest` (part_012 revision): synthesize, store the artifact,
then write `('completed', url)`; on any error write `('failed', null)` and
rethrow. -/
def processTTSRequest (bucket region : JStr) (env : AttemptEnv) (db : DB)
    (ttsRequestId : Nat) (message voice : String) (useS3 : Bool) :
    DB × Except String JStr :=
  match generateTTS env message voice with
  | .error e => (updateTTSRequestInDB db ttsRequestId "failed" none, .error e)
  | .ok audioData =>
    if useS3 then
      match saveTTSAudioToS3 bucket region env ttsRequestId audioData with
      | .error e => (updateTTSRequestInDB db ttsRequestId "failed" none, .error e)
      | .ok audioUrl =>
        (updateTTSRequestInDB db ttsRequestId "completed" (some audioUrl), .ok audioUrl)
    else
      let audioUrl := jstr "/tts_audios/" ++ uniqueFileName ttsRequestId env.uuid
      (updateTTSRequestInDB db ttsRequestId "completed" (some audioUrl), .ok audioUrl)

/-- Source `processTTSRequest` (part_013 revision): identical except that the
success status written is the string `'processed'`. -/
def processTTSRequest13 (bucket region : JStr) (env : AttemptEnv) (db : DB)
    (ttsRequestId : Nat) (message voice : String) (useS3 : Bool) :
    DB × Except String JStr :=
  match generateTTS env message voice with
  | .error e => (updateTTSRequestInDB db ttsRequestId "failed" none, .error e)
  | .ok audioData =>
    if useS3 then
      match saveTTSAudioToS3 bucket region env ttsRequestId audioData with
      | .error e => (updateTTSRequestInDB db ttsRequestId "failed" none, .error e)
      | .ok audioUrl =>
        (updateTTSRequestInDB db ttsRequestId "processed" (some audioUrl), .ok audioUrl)
    else
      let audioUrl := jstr "/tts_audios/" ++ uniqueFileName ttsRequestId env.uuid
      (updateTTSRequestInDB db ttsRequestId "processed" (some audioUrl), .ok audioUrl)

/-! ## Queue processor (queues/ttsQueue.js) and retries -/

/-- The `ttsQueue.process` handler: run the service, then on success
`UPDATE ... SET status = "completed", audio_url = ?`; on failure
`UPDATE ... SET status = "failed"` and rethrow so Bull retries. -/
def queueProcess (bucket region : JStr) (env : AttemptEnv) (db : DB) (job : JobData) :
    DB × Except String JStr :=
  let res := processTTSRequest bucket region env db job.ttsRequestId job.message job.voice job.useS3
  match res.2 with
  | .ok audioUrl =>
    (setStatusUrl res.1 job.ttsRequestId "completed" (some audioUrl), .ok audioUrl)
  | .error e =>
    (setStatusOnly res.1 job.ttsRequestId "failed", .error e)

/-- Outcome of running a job to completion through the queue's retry policy. -/
structure RunResult where
  db : DB
  attemptsMade : Nat
  synthCalls : Nat
  succeeded : Bool

/-- Modelled from the spec: the Bull retry driver itself lives in the
`bull` package, not in this repository; §4.1 specifies it as re-delivering
a failing job until the configured `attempts` bound is exhausted.  Each
delivery runs the repository's `ttsQueue.process` handler (`queueProcess`),
which invokes the synthesis call exactly once per attempt. -/
def runJob (bucket region : JStr) (envs : Nat → AttemptEnv) (remaining : Nat)
    (db : DB) (job : JobData) (attemptsMade synthCalls : Nat) : RunResult :=
  match remaining with
  | 0 => ⟨db, attemptsMade, synthCalls, false⟩
  | r + 1 =>
    match queueProcess bucket region (envs attemptsMade) db job with
    | (db1, .ok _) => ⟨db1, attemptsMade + 1, synthCalls + 1, true⟩
    | (db1, .error _) => runJob bucket region envs r db1 job (attemptsMade + 1) (synthCalls + 1)

/-- Modelled from the spec: the delay Bull schedules before retry `k`
(1-based) under `{type: 'exponential', delay}` — `delay × 2^(k−1)`. -/
def backoffDelayMs (opts : JobOptions) (k : Nat) : Nat :=
  opts.backoff.delay * 2 ^ (k - 1)

/-- The job options every submission passes to `ttsQueue.add`:
`{attempts: 3, backoff: {type: 'exponential', delay: 5000}}`. -/
def ttsJobOptions : JobOptions := ⟨3, ⟨"exponential", 5000⟩⟩

/-- Run a freshly submitted job to completion under its queue options. -/
def runQueuedJob (bucket region : JStr) (envs : Nat → AttemptEnv) (db : DB)
    (q : QueuedJob) : RunResult :=
  runJob bucket region envs q.opts.attempts db q.data 0 0

/-! ## Controllers (controllers/ttsController.js)

`submitTTSRequest` and `updateTTSRequestStatus` below follow the
`src/server/controllers/ttsController.js` revision (its first document);
the socket-emitting variants and `getTTSRequestStatus`, `downloadTTSAudio`
follow the part_009 revision, which adds the emissions, the polling
endpoint and the 202/Retry-After download answer. -/

/-- The request body of `POST /api/tts`; absent fields are `none`. -/
structure SubmitBody where
  message : Option String
  voice : Option String
  userId : Option Nat
  creatorId : Option Nat

/-- Responses of the submit endpoint. -/
inductive SubmitResult where
  /-- `res.status(400).json({error: msg})`. -/
  | badRequest (msg : String)
  /-- `res.status(201).json({message: ..., ttsRequestId})`. -/
  | created (ttsRequestId : Nat)
deriving Repr, DecidableEq

/-- The keys of the 201 response body of a successful submission:
`{message: 'TTS request submitted successfully!', ttsRequestId}`. -/
def submitSuccessBodyKeys : List String := ["message", "ttsRequestId"]

/-- Source `submitTTSRequest` (ttsController.js): validate the four fields, check
the user and creator exist, `INSERT` the row as `'pending'` (this revision's
`INSERT` column list omits `message`), `UPDATE` it to `'processing'`,
enqueue the job with `{attempts: 3, backoff: {type: 'exponential',
delay: 5000}}`, and answer 201 with the new id. -/
def submitTTSRequest (db : DB) (b : SubmitBody) : DB × SubmitResult :=
  match b.userId with
  | none => (db, .badRequest "User ID is required.")
  | some userId =>
  match b.message with
  | none => (db, .badRequest "Message is required.")
  | some message =>
  match b.voice with
  | none => (db, .badRequest "Voice selection is required.")
  | some voice =>
  match b.creatorId with
  | none => (db, .badRequest "Creator ID is required.")
  | some creatorId =>
  if !db.users userId then (db, .badRequest "Invalid user ID.")
  else if !db.creators creatorId then (db, .badRequest "Invalid creator ID.")
  else
    let ttsRequestId := db.nextId
    let db1 : DB := { db with
      nextId := db.nextId + 1
      requests := fun i =>
        if i = ttsRequestId then
          some ⟨userId, creatorId, none, voice, "pending", none, false⟩
        else db.requests i }
    let db2 := setStatusOnly db1 ttsRequestId "processing"
    let db3 : DB := { db2 with
      queue := db2.queue ++ [⟨⟨ttsRequestId, message, voice, true⟩, ttsJobOptions⟩] }
    (db3, .created ttsRequestId)

/-- Responses of `GET /api/tts/request-status/:ttsRequestId` (part_009). -/
inductive StatusResult where
  /-- `res.status(404).json({error: 'TTS request not found.'})`. -/
  | notFound
  /-- `res.status(200).json({status, audioUrl})`. -/
  | ok (status : String) (audioUrl : Option JStr)
deriving Repr, DecidableEq

/-- Source `getTTSRequestStatus` (part_009): look the row up by id and report its
status and audio URL. -/
def getTTSRequestStatus (db : DB) (ttsRequestId : Nat) : StatusResult :=
  match db.requests ttsRequestId with
  | none => .notFound
  | some r => .ok r.status r.audioUrl

/-- Responses of `PUT /api/tts/:id/status`. -/
inductive UpdateResult where
  /-- `res.status(400).json({error: 'Invalid status provided.'})`. -/
  | invalidStatus
  /-- `res.status(404).json({error: 'TTS request not found.'})`. -/
  | notFound
  /-- `res.status(200)` after the `UPDATE` was issued. -/
  | updated
deriving Repr, DecidableEq

/-- Source `updateTTSRequestStatus` (ttsController.js): reject a status outside
`validStatuses`, 404 when the row is missing, and otherwise issue the
unconditional `UPDATE tts_requests SET status = ?, audio_url = ? WHERE id = ?`
with `audioUrl || null`. -/
def updateTTSRequestStatus (db : DB) (id : Nat) (status : String)
    (audioUrl : Option JStr) : DB × UpdateResult :=
  if status ∉ validStatuses then (db, .invalidStatus)
  else
    match db.requests id with
    | none => (db, .notFound)
    | some _ => (setStatusUrl db id status (orNull audioUrl), .updated)

/-- Responses of `GET /api/tts/download/:id` (part_009). -/
inductive DownloadResult where
  /-- `res.status(400).json({error: 'User ID is required.'})`. -/
  | missingUser
  /-- `res.status(404)`: no row matches `id = ? AND user_id = ?`. -/
  | notFound
  /-- `res.status(202).set('Retry-After', '5')`: not completed yet. -/
  | notReady (retryAfterSecs : Nat)
  /-- `res.status(400).json({error: 'Audio file URL not available.'})`. -/
  | noUrl
  /-- Stream the S3 object `(bucket, key)` with the given content type. -/
  | stream (contentType : String) (bucket : JStr) (key : JStr)
deriving Repr, DecidableEq

/-- Source `downloadTTSAudio` (part_009): select by `(id, userId)`; 404 when no
match; 202 with `Retry-After: 5` while the status is not `'completed'`;
400 when completed without a URL; otherwise parse the stored URL into
bucket and key and stream the object as `audio/mpeg`. -/
def downloadTTSAudio (db : DB) (id : Nat) (userId : Option Nat) : DownloadResult :=
  match userId with
  | none => .missingUser
  | some u =>
    match db.requests id with
    | none => .notFound
    | some r =>
      if r.userId ≠ u then .notFound
      else if r.status ≠ "completed" then .notReady 5
      else
        match r.audioUrl with
        | none => .noUrl
        | some audioUrl => .stream "audio/mpeg" (parsedBucket audioUrl) (parsedKey audioUrl)

/-! ## Socket emissions -/

/-- One `io.to(channel).emit(event, payload)` call about a TTS request. -/
structure Emission where
  channel : JStr
  event : String
  ttsRequestId : Nat
deriving Repr, DecidableEq

/-- The channel name `` `creator-room-${creatorId}` ``. -/
def creatorRoom (creatorId : Nat) : JStr :=
  jstr "creator-room-" ++ natChars creatorId

/-- Source `submitTTSRequest` (part_009): same pipeline as `submitTTSRequest`
but the validation is combined, the `INSERT` stores the message, and after
the `'processing'` update the controller emits a `'tts-request'` event to
`` `creator-room-${creatorId}` ``. -/
def part009_submitTTSRequest (db : DB) (b : SubmitBody) :
    DB × SubmitResult × Option Emission :=
  match b.userId, b.message, b.voice, b.creatorId with
  | some userId, some message, some voice, some creatorId =>
    if !db.users userId then
      (db, .badRequest "Invalid user ID.", none)
    else if !db.creators creatorId then
      (db, .badRequest "Invalid creator ID.", none)
    else
      let ttsRequestId := db.nextId
      let db1 : DB := { db with
        nextId := db.nextId + 1
        requests := fun i =>
          if i = ttsRequestId then
            some ⟨userId, creatorId, some message, voice, "pending", none, false⟩
          else db.requests i }
      let db2 := setStatusOnly db1 ttsRequestId "processing"
      let em : Emission := ⟨creatorRoom creatorId, "tts-request", ttsRequestId⟩
      let db3 : DB := { db2 with
        queue := db2.queue ++ [⟨⟨ttsRequestId, message, voice, true⟩, ttsJobOptions⟩] }
      (db3, .created ttsRequestId, some em)
  | _, _, _, _ =>
    (db, .badRequest "All fields (userId, message, voice, creatorId) are required.", none)

/-- Source `updateTTSRequestStatus` (part_009): as `updateTTSRequestStatus`, and
after the `UPDATE` emit `'tts-request'` to the room of the creator id read
from the row. -/
def part009_updateTTSRequestStatus (db : DB) (id : Nat) (status : String)
    (audioUrl : Option JStr) : DB × UpdateResult × Option Emission :=
  if status ∉ validStatuses then (db, .invalidStatus, none)
  else
    match db.requests id with
    | none => (db, .notFound, none)
    | some r =>
      (setStatusUrl db id status (orNull audioUrl), .updated,
        some ⟨creatorRoom r.creatorId, "tts-request", id⟩)

/-- part_001 `ttsQueue.on('completed')`: fetch `creator_id` by the job's
request id and emit `'tts-request'` to that creator's room; no emission
when the row is gone. -/
def part001_onCompleted (db : DB) (job : JobData) (_result : JStr) : Option Emission :=
  match db.requests job.ttsRequestId with
  | none => none
  | some r => some ⟨creatorRoom r.creatorId, "tts-request", job.ttsRequestId⟩

/-- part_001 `ttsQueue.on('failed')`: fetch `creator_id` by the job's
request id and emit `'tts-request-failed'` to that creator's room. -/
def part001_onFailed (db : DB) (job : JobData) (_errMsg : String) : Option Emission :=
  match db.requests job.ttsRequestId with
  | none => none
  | some r => some ⟨creatorRoom r.creatorId, "tts-request-failed", job.ttsRequestId⟩

/-! ## List and decoding lemmas -/

lemma takeWhile_append_of_all {p : Char → Bool} {l1 l2 : JStr}
    (h : ∀ c ∈ l1, p c = true) :
    (l1 ++ l2).takeWhile p = l1 ++ l2.takeWhile p := by
  induction l1 with
  | nil => simp
  | cons a t ih =>
    have ha : p a = true := h a (by simp)
    simp only [List.cons_append, List.takeWhile_cons, ha, if_true]
    rw [ih fun c hc => h c (by simp [hc])]

lemma dropWhile_append_of_all {p : Char → Bool} {l1 l2 : JStr}
    (h : ∀ c ∈ l1, p c = true) :
    (l1 ++ l2).dropWhile p = l2.dropWhile p := by
  induction l1 with
  | nil => simp
  | cons a t ih =>
    have ha : p a = true := h a (by simp)
    simp only [List.cons_append, List.dropWhile_cons, ha, if_true]
    exact ih fun c hc => h c (by simp [hc])

lemma takeWhile_all {p : Char → Bool} {l : JStr} (h : ∀ c ∈ l, p c = true) :
    l.takeWhile p = l := by
  induction l with
  | nil => simp
  | cons a t ih =>
    have ha : p a = true := h a (by simp)
    simp only [List.takeWhile_cons, ha, if_true]
    rw [ih fun c hc => h c (by simp [hc])]

lemma jsDecodeURIComponent_of_no_percent {l : JStr} (h : '%' ∉ l) :
    jsDecodeURIComponent l = l := by
  induction l with
  | nil => rfl
  | cons c rest ih =>
    have hc : ¬ c = '%' := fun hc => h (hc ▸ List.mem_cons_self c rest)
    rw [jsDecodeURIComponent.eq_def]
    simp only
    rw [if_neg hc, ih fun hm => h (List.mem_cons_of_mem c hm)]

lemma hostEnd_false {c : Char} (h1 : c ≠ '/') (h2 : c ≠ '?') (h3 : c ≠ '#') :
    hostEnd c = false := by
  simp [hostEnd, h1, h2, h3]

lemma urlRest_https (X : JStr) : urlRest (jstr "https://" ++ X) = X := rfl

lemma urlHost_of {A B : JStr} (hA : ∀ c ∈ A, hostEnd c = false) :
    urlHost (jstr "https://" ++ (A ++ '/' :: B)) = A := by
  unfold urlHost
  rw [urlRest_https,
    takeWhile_append_of_all (p := fun c => !hostEnd c) (fun c hc => by simp [hA c hc])]
  simp [List.takeWhile_cons, hostEnd]

lemma urlPathname_of {A B : JStr} (hA : ∀ c ∈ A, hostEnd c = false)
    (hB : ∀ c ∈ B, (c != '?' && c != '#') = true) :
    urlPathname (jstr "https://" ++ (A ++ '/' :: B)) = '/' :: B := by
  unfold urlPathname
  rw [urlRest_https,
    dropWhile_append_of_all (p := fun c => !hostEnd c) (fun c hc => by simp [hA c hc])]
  have hdrop : List.dropWhile (fun c => !hostEnd c) ('/' :: B) = '/' :: B := by
    simp [List.dropWhile_cons, hostEnd]
  rw [hdrop]
  exact takeWhile_all fun c hc => by
    rcases List.mem_cons.mp hc with h | h
    · simp [h]
    · exact hB c h

/-- The stored URL, regrouped as scheme ++ (host ++ '/' :: key). -/
lemma s3Url_decomp (bucket region : JStr) (ttsRequestId : Nat) (uuid : JStr) :
    s3Url bucket region ttsRequestId uuid =
      jstr "https://" ++
        ((bucket ++ jstr ".s3." ++ region ++ jstr ".amazonaws.com") ++
          '/' :: s3Key ttsRequestId uuid) := by
  have h : jstr ".amazonaws.com/" = jstr ".amazonaws.com" ++ ['/'] := rfl
  rw [s3Url, h]
  simp [List.append_assoc]

/-! ## Behaviour of the worker pipeline -/

lemma dbSet_requests_self (db : DB) (id : Nat) (f : TTSRec → TTSRec) :
    (dbSet db id f).requests id = (db.requests id).map f := by
  simp [dbSet]

lemma dbSet_requests_other (db : DB) (id i : Nat) (f : TTSRec → TTSRec) (h : i ≠ id) :
    (dbSet db id f).requests i = db.requests i := by
  simp [dbSet, h]

/-- A worker attempt (part_012 service) either succeeds, writing
`('completed', url)`, or fails, writing `('failed', null)`. -/
lemma processTTSRequest_spec (bucket region : JStr) (env : AttemptEnv) (db : DB)
    (id : Nat) (m v : String) (u3 : Bool) :
    (∃ url, (processTTSRequest bucket region env db id m v u3).2 = Except.ok url ∧
      (processTTSRequest bucket region env db id m v u3).1 =
        updateTTSRequestInDB db id "completed" (some url)) ∨
    (∃ e, (processTTSRequest bucket region env db id m v u3).2 = Except.error e ∧
      (processTTSRequest bucket region env db id m v u3).1 =
        updateTTSRequestInDB db id "failed" none) := by
  unfold processTTSRequest generateTTS saveTTSAudioToS3
  cases hs : env.synth with
  | error e => right; exact ⟨e, by simp [hs], by simp [hs]⟩
  | ok audio =>
    by_cases hu : u3
    · by_cases hok : env.s3ok
      · left
        exact ⟨s3Url bucket region id env.uuid, by simp [hs, hu, hok], by simp [hs, hu, hok]⟩
      · right
        exact ⟨"Failed to upload TTS audio to S3.", by simp [hs, hu, hok],
          by simp [hs, hu, hok]⟩
    · left
      exact ⟨jstr "/tts_audios/" ++ uniqueFileName id env.uuid, by simp [hs, hu],
        by simp [hs, hu]⟩

/-- A queue-handler run writes `('completed', url)` on success and leaves
status `'failed'` with a null URL on failure, in both cases touching only
the job's row. -/
lemma queueProcess_spec (bucket region : JStr) (env : AttemptEnv) (db : DB) (job : JobData) :
    ((∃ url, (queueProcess bucket region env db job).2 = Except.ok url ∧
      (queueProcess bucket region env db job).1.requests job.ttsRequestId =
        (db.requests job.ttsRequestId).map fun r =>
          { r with status := "completed", audioUrl := some url, processedAt := true }) ∨
    (∃ e, (queueProcess bucket region env db job).2 = Except.error e ∧
      (queueProcess bucket region env db job).1.requests job.ttsRequestId =
        (db.requests job.ttsRequestId).map fun r =>
          { r with status := "failed", audioUrl := none, processedAt := true })) ∧
    (∀ i, i ≠ job.ttsRequestId →
      (queueProcess bucket region env db job).1.requests i = db.requests i) := by
  rcases processTTSRequest_spec bucket region env db job.ttsRequestId job.message job.voice
      job.useS3 with ⟨url, h2, h1⟩ | ⟨e, h2, h1⟩
  · constructor
    · left
      refine ⟨url, ?_, ?_⟩
      · simp [queueProcess, h2]
      · simp [queueProcess, h2, h1, setStatusUrl, updateTTSRequestInDB,
          dbSet_requests_self, Option.map_map]
        rfl
    · intro i hi
      simp [queueProcess, h2, h1, setStatusUrl, updateTTSRequestInDB,
        dbSet_requests_other _ _ _ _ hi]
  · constructor
    · right
      refine ⟨e, ?_, ?_⟩
      · simp [queueProcess, h2]
      · simp [queueProcess, h2, h1, setStatusOnly, updateTTSRequestInDB,
          dbSet_requests_self, Option.map_map]
        rfl
    · intro i hi
      simp [queueProcess, h2, h1, setStatusOnly, updateTTSRequestInDB,
        dbSet_requests_other _ _ _ _ hi]

/-! ## Claim C10 — download URL parsing vs upload URL construction -/

lemma s3Key_chars {uuid : JStr} (ttsRequestId : Nat)
    (hu2 : '?' ∉ uuid) (hu3 : '#' ∉ uuid) (hu4 : '%' ∉ uuid) :
    ∀ c ∈ s3Key ttsRequestId uuid, c ≠ '%' ∧ (c != '?' && c != '#') = true := by
  intro c hc
  have hlit1 : ∀ c ∈ jstr "tts_audios/", c ≠ '%' ∧ (c != '?' && c != '#') = true := by decide
  have hlit2 : ∀ c ∈ jstr "-", c ≠ '%' ∧ (c != '?' && c != '#') = true := by decide
  have hlit3 : ∀ c ∈ jstr ".mp3", c ≠ '%' ∧ (c != '?' && c != '#') = true := by decide
  have hdig : ∀ c ∈ decDigits, c ≠ '%' ∧ (c != '?' && c != '#') = true := by decide
  simp only [s3Key, uniqueFileName, List.append_assoc, List.mem_append] at hc
  rcases hc with h | h | h | h | h
  · exact hlit1 c h
  · exact hdig c (natChars_mem_decDigits _ c h)
  · exact hlit2 c h
  · have h2 : c ≠ '?' := fun he => hu2 (he ▸ h)
    have h3 : c ≠ '#' := fun he => hu3 (he ▸ h)
    have h4 : c ≠ '%' := fun he => hu4 (he ▸ h)
    exact ⟨h4, by simp [bne_iff_ne, h2, h3]⟩
  · exact hlit3 c h

/-- C10: the download path's URL parsing inverts the upload path's URL
construction — for every bucket containing no dot and every region, request
id and random suffix containing no `/`, `?`, `#` or `%`, parsing the stored
URL yields exactly the bucket and the stored key. -/
theorem c10_parse_inverts_upload (bucket region uuid : JStr) (ttsRequestId : Nat)
    (hbdot : '.' ∉ bucket) (hb1 : '/' ∉ bucket) (hb2 : '?' ∉ bucket) (hb3 : '#' ∉ bucket)
    (hr1 : '/' ∉ region) (hr2 : '?' ∉ region) (hr3 : '#' ∉ region)
    (hu2 : '?' ∉ uuid) (hu3 : '#' ∉ uuid) (hu4 : '%' ∉ uuid) :
    parsedBucket (s3Url bucket region ttsRequestId uuid) = bucket ∧
    parsedKey (s3Url bucket region ttsRequestId uuid) = s3Key ttsRequestId uuid := by
  have hA : ∀ c ∈ bucket ++ jstr ".s3." ++ region ++ jstr ".amazonaws.com",
      hostEnd c = false := by
    have hlit1 : ∀ c ∈ jstr ".s3.", hostEnd c = false := by decide
    have hlit2 : ∀ c ∈ jstr ".amazonaws.com", hostEnd c = false := by decide
    intro c hc
    simp only [List.append_assoc, List.mem_append] at hc
    rcases hc with h | h | h | h
    · exact hostEnd_false (fun he => hb1 (he ▸ h)) (fun he => hb2 (he ▸ h))
        (fun he => hb3 (he ▸ h))
    · exact hlit1 c h
    · exact hostEnd_false (fun he => hr1 (he ▸ h)) (fun he => hr2 (he ▸ h))
        (fun he => hr3 (he ▸ h))
    · exact hlit2 c h
  have hKey := s3Key_chars ttsRequestId hu2 hu3 hu4
  have hB : ∀ c ∈ s3Key ttsRequestId uuid, (c != '?' && c != '#') = true :=
    fun c hc => (hKey c hc).2
  have hBp : '%' ∉ s3Key ttsRequestId uuid := fun hm => (hKey '%' hm).1 rfl
  constructor
  · rw [parsedBucket, s3Url_decomp, urlHost_of hA]
    have hsplit : bucket ++ jstr ".s3." ++ region ++ jstr ".amazonaws.com" =
        bucket ++ ('.' :: (jstr "s3." ++ region ++ jstr ".amazonaws.com")) := by
      simp [List.append_assoc]
      rfl
    rw [firstLabel, hsplit,
      takeWhile_append_of_all (fun c hc => by
        have hne : c ≠ '.' := fun he => hbdot (he ▸ hc)
        simp [bne_iff_ne, hne])]
    simp [List.takeWhile_cons]
  · rw [parsedKey, s3Url_decomp, urlPathname_of hA hB]
    simpa using jsDecodeURIComponent_of_no_percent hBp

/-- C10 counterexample: with region `r/s` (and bucket `b`, id 1, suffix `u`)
the parsed key differs from the stored key, so the round-trip property as
stated — quantifying over every region — fails. -/
theorem c10_counterexample :
    parsedKey (s3Url (jstr "b") (jstr "r/s") 1 (jstr "u")) ≠ s3Key 1 (jstr "u") := by
  decide

/-- C10 witness: the round-trip theorem applied at bucket `mybucket`,
region `us-east-1`, id 42 and suffix `uu-id`. -/
theorem c10_witness :
    parsedBucket (s3Url (jstr "mybucket") (jstr "us-east-1") 42 (jstr "uu-id")) =
      jstr "mybucket" ∧
    parsedKey (s3Url (jstr "mybucket") (jstr "us-east-1") 42 (jstr "uu-id")) =
      s3Key 42 (jstr "uu-id") :=
  c10_parse_inverts_upload (jstr "mybucket") (jstr "us-east-1") (jstr "uu-id") 42
    (by decide) (by decide) (by decide) (by decide) (by decide) (by decide)
    (by decide) (by decide) (by decide) (by decide)

/-! ## A concrete system state used by counterexamples and witnesses -/

/-- Request 1: completed with a stored artifact URL.  Request 2: still
processing.  User 7 and creator 3 exist; the next insert id is 5. -/
def dbEx : DB :=
  { requests := fun i =>
      if i = 1 then
        some ⟨7, 3, some "hello", "v1", "completed",
          some (s3Url (jstr "bkt") (jstr "r") 1 (jstr "a")), true⟩
      else if i = 2 then
        some ⟨7, 3, some "hi", "v1", "processing", none, false⟩
      else none
    users := fun u => u == 7
    creators := fun c => c == 3
    nextId := 5
    queue := [] }

/-! ## Claim C1 — terminal states and conditional status writes -/

/-- C1 counterexample: request 1 of `dbEx` is stored as `completed`, yet a
status-update call with body status `'pending'` changes it to `'pending'`,
so a terminal state does change and the write was applied although
`completed → pending` is no valid predecessor step. -/
theorem c1_counterexample :
    (dbEx.requests 1).map TTSRec.status = some "completed" ∧
    ((updateTTSRequestStatus dbEx 1 "pending" none).1.requests 1).map TTSRec.status =
      some "pending" := by
  decide

/-- C1 (amended): status writes are unconditional — whenever the requested
status is in `validStatuses` and the row exists, the status-update endpoint
overwrites the stored status and audio URL regardless of the current stored
status (no valid-predecessor check), so terminal states can regress. -/
theorem c1_status_writes_unconditional (db : DB) (id : Nat) (r : TTSRec)
    (status : String) (audioUrl : Option JStr)
    (hr : db.requests id = some r) (hs : status ∈ validStatuses) :
    (updateTTSRequestStatus db id status audioUrl).1.requests id =
      some { r with status := status, audioUrl := orNull audioUrl } := by
  simp [updateTTSRequestStatus, hr, hs, setStatusUrl, dbSet_requests_self]

/-- C1 witness: the unconditional-write theorem applied to the `completed`
request 1 of `dbEx` with requested status `'pending'`. -/
theorem c1_witness :
    (updateTTSRequestStatus dbEx 1 "pending" none).1.requests 1 =
      some ⟨7, 3, some "hello", "v1", "pending", none, true⟩ :=
  c1_status_writes_unconditional dbEx 1
    ⟨7, 3, some "hello", "v1", "completed",
      some (s3Url (jstr "bkt") (jstr "r") 1 (jstr "a")), true⟩
    "pending" none (by decide) (by decide)

/-! ## Claim C2 — audio URL non-null iff status completed -/

/-- C2 counterexample: running the part_013 revision of the worker service
on request 2 with a succeeding synthesis stores status `'processed'`
together with a non-null audio URL, so at that observable point the URL is
non-null while the status is not `completed`. -/
theorem c2_counterexample :
    ((processTTSRequest13 (jstr "bkt") (jstr "r") ⟨Except.ok [1], true, jstr "u"⟩
        dbEx 2 "hi" "v1" true).1.requests 2).map TTSRec.status = some "processed" ∧
    ((processTTSRequest13 (jstr "bkt") (jstr "r") ⟨Except.ok [1], true, jstr "u"⟩
        dbEx 2 "hi" "v1" true).1.requests 2).map TTSRec.audioUrl =
      some (some (s3Url (jstr "bkt") (jstr "r") 2 (jstr "u"))) ∧
    ("processed" : String) ≠ "completed" := by
  decide

/-- C2 (amended): along the worker path of the part_012 revision the
invariant does hold — after a queue-handler run on a job, the job's stored
audio URL is non-null iff its stored status is `'completed'` (in particular
a `'failed'` write leaves a null URL).  The status-update endpoint and the
part_013 revision (which writes `'processed'`) are not covered. -/
theorem c2_url_iff_completed_on_worker_path (bucket region : JStr) (env : AttemptEnv)
    (db : DB) (job : JobData) (r' : TTSRec)
    (h : (queueProcess bucket region env db job).1.requests job.ttsRequestId = some r') :
    (r'.audioUrl ≠ none ↔ r'.status = "completed") := by
  rcases (queueProcess_spec bucket region env db job).1 with ⟨url, _, h1⟩ | ⟨e, _, h1⟩ <;>
    rw [h1] at h <;>
    cases hr : db.requests job.ttsRequestId <;>
    rw [hr] at h <;> simp at h <;> subst h <;> simp

/-- C2 witness: the worker-path invariant applied to a successful run on
request 2 of `dbEx`. -/
theorem c2_witness :
    (some (s3Url (jstr "bkt") (jstr "r") 2 (jstr "u")) : Option JStr) ≠ none ↔
      ("completed" : String) = "completed" :=
  c2_url_iff_completed_on_worker_path (jstr "bkt") (jstr "r")
    ⟨Except.ok [1], true, jstr "u"⟩ dbEx ⟨2, "hi", "v1", true⟩
    ⟨7, 3, some "hi", "v1", "completed",
      some (s3Url (jstr "bkt") (jstr "r") 2 (jstr "u")), true⟩
    (by decide)

/-! ## Claim C3 — retry metadata and exact retry bound -/

/-- On a synthesis error the queue handler reports failure and writes
`('failed', null)` to the job's row. -/
lemma queueProcess_synth_error {env : AttemptEnv} {e : String}
    (bucket region : JStr) (db : DB) (job : JobData) (hs : env.synth = Except.error e) :
    (queueProcess bucket region env db job).2 = Except.error e ∧
    (queueProcess bucket region env db job).1.requests job.ttsRequestId =
      (db.requests job.ttsRequestId).map fun r =>
        { r with status := "failed", audioUrl := none, processedAt := true } := by
  have hp : (processTTSRequest bucket region env db job.ttsRequestId job.message job.voice
      job.useS3).2 = Except.error e ∧
      (processTTSRequest bucket region env db job.ttsRequestId job.message job.voice
        job.useS3).1 = updateTTSRequestInDB db job.ttsRequestId "failed" none := by
    constructor <;> simp [processTTSRequest, generateTTS, hs]
  refine ⟨by simp [queueProcess, hp.1], ?_⟩
  simp [queueProcess, hp.1, hp.2, setStatusOnly, updateTTSRequestInDB,
    dbSet_requests_self, Option.map_map]
  rfl

/-- With an always-failing synthesis call, running a job for `remaining`
more deliveries makes exactly `remaining` further attempts, one synthesis
call each, never succeeds, and (as soon as one attempt ran) leaves the
job's row at status `'failed'`. -/
lemma runJob_all_synth_fail (bucket region : JStr) (envs : Nat → AttemptEnv)
    (job : JobData) (hfail : ∀ k, ∃ e, (envs k).synth = Except.error e) :
    ∀ remaining db a s,
      (runJob bucket region envs remaining db job a s).attemptsMade = a + remaining ∧
      (runJob bucket region envs remaining db job a s).synthCalls = s + remaining ∧
      (runJob bucket region envs remaining db job a s).succeeded = false ∧
      (runJob bucket region envs remaining db job a s).db.requests job.ttsRequestId =
        (if remaining = 0 then db.requests job.ttsRequestId
         else (db.requests job.ttsRequestId).map fun r =>
           { r with status := "failed", audioUrl := none, processedAt := true }) := by
  intro remaining
  induction remaining with
  | zero => intro db a s; simp [runJob]
  | succ rem ih =>
    intro db a s
    obtain ⟨e, he⟩ := hfail a
    obtain ⟨h2, h1⟩ := queueProcess_synth_error bucket region db job he
    rw [runJob]
    rcases hq : queueProcess bucket region (envs a) db job with ⟨db1, res⟩
    rw [hq] at h2 h1
    simp only at h2 h1
    subst h2
    simp only
    obtain ⟨ha, hs', hsc, hdb⟩ := ih db1 (a + 1) (s + 1)
    refine ⟨by omega, by omega, hsc, ?_⟩
    rw [hdb, h1]
    by_cases hr : rem = 0
    · simp [hr]
    · simp only [if_neg hr, if_neg (Nat.succ_ne_zero rem), Option.map_map]
      cases db.requests job.ttsRequestId <;> rfl

/-- C3: every submission enqueues its job with `{attempts: 3, backoff:
{type: 'exponential', delay: 5000}}` (exponential backoff starting at
5000 ms), and a job whose synthesis call errors on every attempt makes
exactly 3 worker attempts — no fewer, no more — with the synthesis call
invoked exactly 3 times, after which the stored status is `'failed'`. -/
theorem c3_retry_bound :
    (ttsJobOptions.attempts = 3 ∧ ttsJobOptions.backoff.type = "exponential" ∧
      ttsJobOptions.backoff.delay = 5000 ∧
      backoffDelayMs ttsJobOptions 1 = 5000 ∧
      (∀ k, 1 ≤ k → backoffDelayMs ttsJobOptions (k + 1) =
        2 * backoffDelayMs ttsJobOptions k)) ∧
    (∀ db b q, q ∈ (submitTTSRequest db b).1.queue → q ∈ db.queue ∨ q.opts = ttsJobOptions) ∧
    (∀ bucket region envs db job r0,
      (∀ k, ∃ e, (envs k).synth = Except.error e) →
      db.requests job.ttsRequestId = some r0 →
      (runQueuedJob bucket region envs db ⟨job, ttsJobOptions⟩).attemptsMade = 3 ∧
      (runQueuedJob bucket region envs db ⟨job, ttsJobOptions⟩).synthCalls = 3 ∧
      (runQueuedJob bucket region envs db ⟨job, ttsJobOptions⟩).succeeded = false ∧
      ((runQueuedJob bucket region envs db ⟨job, ttsJobOptions⟩).db.requests
          job.ttsRequestId).map TTSRec.status = some "failed") := by
  refine ⟨⟨rfl, rfl, rfl, rfl, ?_⟩, ?_, ?_⟩
  · intro k hk
    unfold backoffDelayMs ttsJobOptions
    simp only
    have h1 : k + 1 - 1 = (k - 1) + 1 := by omega
    rw [h1, pow_succ]
    ring
  · intro db b q hq
    obtain ⟨bm, bv, bu, bc⟩ := b
    rcases bu with _ | u
    · exact Or.inl (by simpa [submitTTSRequest] using hq)
    rcases bm with _ | m
    · exact Or.inl (by simpa [submitTTSRequest] using hq)
    rcases bv with _ | v
    · exact Or.inl (by simpa [submitTTSRequest] using hq)
    rcases bc with _ | c
    · exact Or.inl (by simpa [submitTTSRequest] using hq)
    by_cases hu : db.users u = true
    · by_cases hc : db.creators c = true
      · simp only [submitTTSRequest, hu, hc, Bool.not_true, Bool.false_eq_true,
          if_false, setStatusOnly, dbSet, List.mem_append, List.mem_singleton] at hq
        rcases hq with h | h
        · exact Or.inl h
        · subst h
          exact Or.inr rfl
      · exact Or.inl (by simpa [submitTTSRequest, hu, hc] using hq)
    · exact Or.inl (by simpa [submitTTSRequest, hu] using hq)
  · intro bucket region envs db job r0 hfail hr0
    obtain ⟨ha, hs, hsc, hdb⟩ :=
      runJob_all_synth_fail bucket region envs job hfail 3 db 0 0
    rw [if_neg (show ¬(3 = 0) by omega)] at hdb
    refine ⟨ha, hs, hsc, ?_⟩
    have hconv : (runQueuedJob bucket region envs db ⟨job, ttsJobOptions⟩).db.requests
        job.ttsRequestId =
        (runJob bucket region envs 3 db job 0 0).db.requests job.ttsRequestId := rfl
    rw [hconv, hdb, hr0]
    rfl

/-- C3 witness: three always-failing attempts on request 2 of `dbEx`. -/
theorem c3_witness :
    (runQueuedJob (jstr "bkt") (jstr "r")
        (fun _ => ⟨Except.error "boom", true, jstr "u"⟩) dbEx
        ⟨⟨2, "hi", "v1", true⟩, ttsJobOptions⟩).attemptsMade = 3 ∧
    (runQueuedJob (jstr "bkt") (jstr "r")
        (fun _ => ⟨Except.error "boom", true, jstr "u"⟩) dbEx
        ⟨⟨2, "hi", "v1", true⟩, ttsJobOptions⟩).synthCalls = 3 ∧
    (runQueuedJob (jstr "bkt") (jstr "r")
        (fun _ => ⟨Except.error "boom", true, jstr "u"⟩) dbEx
        ⟨⟨2, "hi", "v1", true⟩, ttsJobOptions⟩).succeeded = false ∧
    ((runQueuedJob (jstr "bkt") (jstr "r")
        (fun _ => ⟨Except.error "boom", true, jstr "u"⟩) dbEx
        ⟨⟨2, "hi", "v1", true⟩, ttsJobOptions⟩).db.requests 2).map TTSRec.status =
      some "failed" :=
  c3_retry_bound.2.2 (jstr "bkt") (jstr "r")
    (fun _ => ⟨Except.error "boom", true, jstr "u"⟩) dbEx ⟨2, "hi", "v1", true⟩
    ⟨7, 3, some "hi", "v1", "processing", none, false⟩
    (fun _ => ⟨"boom", rfl⟩) (by decide)

/-! ## Claim C4 — stored status between attempts -/

/-- C4 counterexample: request 2 of `dbEx` is `'processing'`; its job has
`attempts = 3`, so after a first failing attempt retries remain, yet the
stored status right after that attempt is `'failed'` — it did not remain
`'processing'` between attempts. -/
theorem c4_counterexample :
    ttsJobOptions.attempts = 3 ∧
    (dbEx.requests 2).map TTSRec.status = some "processing" ∧
    ((queueProcess (jstr "bkt") (jstr "r") ⟨Except.error "boom", true, jstr "u"⟩
        dbEx ⟨2, "hi", "v1", true⟩).1.requests 2).map TTSRec.status = some "failed" := by
  decide

/-- C4 (amended): after any failing worker attempt (final or not) the
stored status of the request is `'failed'` — the worker's error handlers
write `'failed'` immediately; in particular the record never bounces back
to `'pending'` between attempts, but it does not remain `'processing'`
either. -/
theorem c4_failed_between_attempts (bucket region : JStr) (env : AttemptEnv)
    (db : DB) (job : JobData) (e : String) (r0 : TTSRec)
    (herr : (queueProcess bucket region env db job).2 = Except.error e)
    (hr0 : db.requests job.ttsRequestId = some r0) :
    ((queueProcess bucket region env db job).1.requests job.ttsRequestId).map
      TTSRec.status = some "failed" := by
  rcases (queueProcess_spec bucket region env db job).1 with ⟨url, h2, h1⟩ | ⟨e', h2, h1⟩
  · rw [herr] at h2
    cases h2
  · rw [h1, hr0]
    rfl

/-- C4 witness: the amended theorem applied to a failing first attempt on
request 2 of `dbEx`. -/
theorem c4_witness :
    ((queueProcess (jstr "bkt") (jstr "r") ⟨Except.error "boom", true, jstr "u"⟩
        dbEx ⟨2, "hi", "v1", true⟩).1.requests 2).map TTSRec.status = some "failed" :=
  c4_failed_between_attempts (jstr "bkt") (jstr "r")
    ⟨Except.error "boom", true, jstr "u"⟩ dbEx ⟨2, "hi", "v1", true⟩ "boom"
    ⟨7, 3, some "hi", "v1", "processing", none, false⟩ rfl (by decide)

/-! ## Claim C5 — idempotency of redelivery -/

/-- C5 counterexample: request 1 of `dbEx` is already `'completed'` with a
stored artifact URL, yet re-running its job does not skip work — the
worker re-synthesizes and overwrites the stored URL with a different
artifact URL (fresh uuid suffix `b` instead of `a`). -/
theorem c5_counterexample :
    (dbEx.requests 1).map TTSRec.status = some "completed" ∧
    (dbEx.requests 1).map TTSRec.audioUrl =
      some (some (s3Url (jstr "bkt") (jstr "r") 1 (jstr "a"))) ∧
    ((queueProcess (jstr "bkt") (jstr "r") ⟨Except.ok [1], true, jstr "b"⟩
        dbEx ⟨1, "hello", "v1", true⟩).1.requests 1).map TTSRec.audioUrl =
      some (some (s3Url (jstr "bkt") (jstr "r") 1 (jstr "b"))) ∧
    s3Url (jstr "bkt") (jstr "r") 1 (jstr "b") ≠
      s3Url (jstr "bkt") (jstr "r") 1 (jstr "a") := by
  decide

/-- C5 (amended): the worker performs no stored-status check and does not
skip work — a redelivered job is re-processed and its run unconditionally
overwrites the row: on success the stored URL becomes exactly this run's
artifact URL (last write wins); in all cases the run leaves the request's
status terminal (`'completed'` or `'failed'`), never stuck non-terminal. -/
theorem c5_rerun_overwrites_terminal (bucket region : JStr) (env : AttemptEnv)
    (db : DB) (job : JobData) (r' : TTSRec)
    (h : (queueProcess bucket region env db job).1.requests job.ttsRequestId = some r') :
    (r'.status = "completed" ∨ r'.status = "failed") ∧
    (∀ url, (queueProcess bucket region env db job).2 = Except.ok url →
      r'.audioUrl = some url) := by
  rcases (queueProcess_spec bucket region env db job).1 with ⟨url, h2, h1⟩ | ⟨e, h2, h1⟩ <;>
    rw [h1] at h <;>
    cases hr : db.requests job.ttsRequestId <;>
    rw [hr] at h <;> simp at h <;> subst h
  · refine ⟨Or.inl rfl, ?_⟩
    intro url' hu
    rw [h2] at hu
    cases hu
    rfl
  · refine ⟨Or.inr rfl, ?_⟩
    intro url' hu
    rw [h2] at hu
    cases hu

/-- C5 witness: the amended theorem applied to the redelivered job of the
already-completed request 1 of `dbEx`. -/
theorem c5_witness :
    (("completed" : String) = "completed" ∨ ("completed" : String) = "failed") ∧
    (∀ url, (queueProcess (jstr "bkt") (jstr "r") ⟨Except.ok [1], true, jstr "b"⟩
        dbEx ⟨1, "hello", "v1", true⟩).2 = Except.ok url →
      (some (s3Url (jstr "bkt") (jstr "r") 1 (jstr "b")) : Option JStr) = some url) :=
  c5_rerun_overwrites_terminal (jstr "bkt") (jstr "r") ⟨Except.ok [1], true, jstr "b"⟩
    dbEx ⟨1, "hello", "v1", true⟩
    ⟨7, 3, some "hello", "v1", "completed",
      some (s3Url (jstr "bkt") (jstr "r") 1 (jstr "b")), true⟩
    (by decide)

/-! ## Claim C6 — status right after submission -/

/-- C6: whenever a submission passes validation the submit endpoint answers
immediately with the new request id, and a status query on that id at that
moment returns `'processing'` (hence pending-or-processing and never
`'completed'`) with a null audio URL. -/
theorem c6_submit_immediate_status (db : DB) (b : SubmitBody) (db' : DB) (id : Nat)
    (h : submitTTSRequest db b = (db', SubmitResult.created id)) :
    ∃ st, getTTSRequestStatus db' id = StatusResult.ok st none ∧
      (st = "pending" ∨ st = "processing") ∧ st ≠ "completed" := by
  obtain ⟨bm, bv, bu, bc⟩ := b
  rcases bu with _ | u
  · simp [submitTTSRequest] at h
  rcases bm with _ | m
  · simp [submitTTSRequest] at h
  rcases bv with _ | v
  · simp [submitTTSRequest] at h
  rcases bc with _ | c
  · simp [submitTTSRequest] at h
  by_cases hu : db.users u = true
  · by_cases hc : db.creators c = true
    · simp only [submitTTSRequest, hu, hc, Bool.not_true, Bool.false_eq_true, if_false,
        Prod.mk.injEq, SubmitResult.created.injEq] at h
      obtain ⟨hdb, hid⟩ := h
      refine ⟨"processing", ?_, Or.inr rfl, by decide⟩
      rw [← hdb, ← hid]
      simp [getTTSRequestStatus, setStatusOnly, dbSet]
    · simp [submitTTSRequest, hu, hc] at h
  · simp [submitTTSRequest, hu] at h

/-- C6 witness: a valid submission on `dbEx` yields id 5, immediately
queried as `'processing'`. -/
theorem c6_witness :
    ∃ st, getTTSRequestStatus
        (submitTTSRequest dbEx ⟨some "hello", some "v1", some 7, some 3⟩).1 5 =
        StatusResult.ok st none ∧
      (st = "pending" ∨ st = "processing") ∧ st ≠ "completed" :=
  c6_submit_immediate_status dbEx ⟨some "hello", some "v1", some 7, some 3⟩
    (submitTTSRequest dbEx ⟨some "hello", some "v1", some 7, some 3⟩).1 5 rfl

/-! ## Claim C7 — download contract -/

/-- C7: for a download request with a requesting user: no matching
`(id, user)` row gives NotFound; a matching row that is not `'completed'`
gives the retryable 202 answer with a suggested 5-second retry delay and no
audio bytes; and bytes are streamed (content type `audio/mpeg`) only when
the matching row's status is `'completed'`. -/
theorem c7_download_contract (db : DB) (id u : Nat) :
    (db.requests id = none → downloadTTSAudio db id (some u) = DownloadResult.notFound) ∧
    (∀ r, db.requests id = some r → r.userId ≠ u →
      downloadTTSAudio db id (some u) = DownloadResult.notFound) ∧
    (∀ r, db.requests id = some r → r.userId = u → r.status ≠ "completed" →
      downloadTTSAudio db id (some u) = DownloadResult.notReady 5) ∧
    (∀ ct bkt key, downloadTTSAudio db id (some u) = DownloadResult.stream ct bkt key →
      ∃ r, db.requests id = some r ∧ r.userId = u ∧ r.status = "completed" ∧
        ct = "audio/mpeg") := by
  refine ⟨?_, ?_, ?_, ?_⟩
  · intro h
    simp [downloadTTSAudio, h]
  · intro r hr hne
    simp [downloadTTSAudio, hr, hne]
  · intro r hr hu hst
    simp [downloadTTSAudio, hr, hu, hst]
  · intro ct bkt key h
    cases hr : db.requests id with
    | none => simp [downloadTTSAudio, hr] at h
    | some r =>
      by_cases hu : r.userId = u
      · by_cases hst : r.status = "completed"
        · cases ha : r.audioUrl with
          | none => simp [downloadTTSAudio, hr, hu, hst, ha] at h
          | some url =>
            simp [downloadTTSAudio, hr, hu, hst, ha] at h
            exact ⟨r, rfl, hu, hst, h.1.symm⟩
        · simp [downloadTTSAudio, hr, hu, hst] at h
      · simp [downloadTTSAudio, hr, hu] at h

/-- C7 witness: the contract applied to the still-processing request 2 of
`dbEx`, whose download answer is the retryable 202 with delay 5. -/
theorem c7_witness :
    downloadTTSAudio dbEx 2 (some 7) = DownloadResult.notReady 5 :=
  (c7_download_contract dbEx 2 7).2.2.1
    ⟨7, 3, some "hi", "v1", "processing", none, false⟩ (by decide) rfl (by decide)

/-! ## Claim C8 — submit validation -/

/-- C8 counterexample: a fully valid submission on `dbEx` succeeds with the
new request id, but the 201 response body holds only the keys `message` and
`ttsRequestId` — no `status` field — so the claim's "returns the new
request id with its status" fails. -/
theorem c8_counterexample :
    (submitTTSRequest dbEx ⟨some "hello", some "v1", some 7, some 3⟩).2 =
      SubmitResult.created 5 ∧
    "status" ∉ submitSuccessBodyKeys := by
  decide

/-- C8 (amended): the submit endpoint rejects synchronously exactly when
message, voice, requester id or creator id is missing or the given id does
not resolve in the `users`/`creators` tables; a rejection leaves the state
(rows and queue) unchanged; otherwise it answers with the new request id —
but the success body carries no `status` field. -/
theorem c8_submit_validation (db : DB) (b : SubmitBody) :
    ((∃ msg, (submitTTSRequest db b).2 = SubmitResult.badRequest msg) ↔
      (b.userId = none ∨ b.message = none ∨ b.voice = none ∨ b.creatorId = none ∨
       (∃ u, b.userId = some u ∧ db.users u = false) ∨
       (∃ c, b.creatorId = some c ∧ db.creators c = false))) ∧
    (∀ msg, (submitTTSRequest db b).2 = SubmitResult.badRequest msg →
      (submitTTSRequest db b).1 = db) ∧
    ((∃ msg, (submitTTSRequest db b).2 = SubmitResult.badRequest msg) ∨
      (submitTTSRequest db b).2 = SubmitResult.created db.nextId) ∧
    "status" ∉ submitSuccessBodyKeys := by
  obtain ⟨bm, bv, bu, bc⟩ := b
  have hkeys : "status" ∉ submitSuccessBodyKeys := by decide
  rcases bu with _ | u
  · exact ⟨by simp [submitTTSRequest], fun msg _ => rfl, Or.inl (by simp [submitTTSRequest]),
      hkeys⟩
  rcases bm with _ | m
  · exact ⟨by simp [submitTTSRequest], fun msg _ => rfl, Or.inl (by simp [submitTTSRequest]),
      hkeys⟩
  rcases bv with _ | v
  · exact ⟨by simp [submitTTSRequest], fun msg _ => rfl, Or.inl (by simp [submitTTSRequest]),
      hkeys⟩
  rcases bc with _ | c
  · exact ⟨by simp [submitTTSRequest], fun msg _ => rfl, Or.inl (by simp [submitTTSRequest]),
      hkeys⟩
  by_cases hu : db.users u = true
  · by_cases hc : db.creators c = true
    · refine ⟨?_, ?_, Or.inr (by simp [submitTTSRequest, hu, hc]), hkeys⟩
      · simp [submitTTSRequest, hu, hc]
      · intro msg hmsg
        simp [submitTTSRequest, hu, hc] at hmsg
    · refine ⟨?_, fun msg _ => by simp [submitTTSRequest, hu, hc],
        Or.inl (by simp [submitTTSRequest, hu, hc]), hkeys⟩
      simp [submitTTSRequest, hu, hc]
  · refine ⟨?_, fun msg _ => by simp [submitTTSRequest, hu],
      Or.inl (by simp [submitTTSRequest, hu]), hkeys⟩
    simp [submitTTSRequest, hu]

/-- C8 witness: the validation theorem applied to `dbEx` with a submission
missing its message: the response is a rejection and the state is the
unchanged `dbEx`. -/
theorem c8_witness :
    (submitTTSRequest dbEx ⟨none, some "v1", some 7, some 3⟩).1 = dbEx :=
  (c8_submit_validation dbEx ⟨none, some "v1", some 7, some 3⟩).2.1
    "Message is required." rfl

/-! ## Claim C9 — notification channels keyed by the stored creator id -/

/-- The map `creatorRoom` is injective: rooms of different creator ids differ. -/
lemma creatorRoom_injective : Function.Injective creatorRoom := by
  intro a b h
  exact natChars_injective (List.append_cancel_left h)

/-- C9: every TTS notification emission — the submit-time event, the
status-update event, and the queue `completed`/`failed` handlers — goes to
the channel `creator-room-<creatorId>` built from the creator id stored on
that request, and distinct creator ids give distinct channels, so an event
about one creator's request is never delivered to a channel keyed by a
different creator id. -/
theorem c9_emissions_keyed_by_stored_creator :
    (∀ a b : Nat, creatorRoom a = creatorRoom b → a = b) ∧
    (∀ db job result e, part001_onCompleted db job result = some e →
      ∃ r, db.requests job.ttsRequestId = some r ∧
        e.channel = creatorRoom r.creatorId ∧ e.ttsRequestId = job.ttsRequestId) ∧
    (∀ db job msg e, part001_onFailed db job msg = some e →
      ∃ r, db.requests job.ttsRequestId = some r ∧
        e.channel = creatorRoom r.creatorId ∧ e.ttsRequestId = job.ttsRequestId) ∧
    (∀ db id status url db' res e,
      part009_updateTTSRequestStatus db id status url = (db', res, some e) →
      ∃ r, db.requests id = some r ∧
        e.channel = creatorRoom r.creatorId ∧ e.ttsRequestId = id) ∧
    (∀ db b db' res e, part009_submitTTSRequest db b = (db', res, some e) →
      ∃ r, db'.requests e.ttsRequestId = some r ∧
        e.channel = creatorRoom r.creatorId) := by
  refine ⟨fun a b h => creatorRoom_injective h, ?_, ?_, ?_, ?_⟩
  · intro db job result e h
    cases hr : db.requests job.ttsRequestId with
    | none => simp [part001_onCompleted, hr] at h
    | some r =>
      simp [part001_onCompleted, hr] at h
      exact ⟨r, rfl, by rw [← h], by rw [← h]⟩
  · intro db job msg e h
    cases hr : db.requests job.ttsRequestId with
    | none => simp [part001_onFailed, hr] at h
    | some r =>
      simp [part001_onFailed, hr] at h
      exact ⟨r, rfl, by rw [← h], by rw [← h]⟩
  · intro db id status url db' res e h
    by_cases hs : status ∈ validStatuses
    · cases hr : db.requests id with
      | none => simp [part009_updateTTSRequestStatus, hs, hr] at h
      | some r =>
        simp [part009_updateTTSRequestStatus, hs, hr] at h
        exact ⟨r, rfl, by rw [← h.2.2], by rw [← h.2.2]⟩
    · simp [part009_updateTTSRequestStatus, hs] at h
  · intro db b db' res e h
    obtain ⟨bm, bv, bu, bc⟩ := b
    rcases bu with _ | u
    · simp [part009_submitTTSRequest] at h
    rcases bm with _ | m
    · simp [part009_submitTTSRequest] at h
    rcases bv with _ | v
    · simp [part009_submitTTSRequest] at h
    rcases bc with _ | c
    · simp [part009_submitTTSRequest] at h
    by_cases hu : db.users u = true
    · by_cases hc : db.creators c = true
      · simp only [part009_submitTTSRequest, hu, hc, Bool.not_true, Bool.false_eq_true,
          if_false, Prod.mk.injEq, Option.some.injEq] at h
        obtain ⟨hdb, _, he⟩ := h
        refine ⟨⟨u, c, some m, v, "processing", none, false⟩, ?_, ?_⟩
        · rw [← hdb, ← he]
          simp [setStatusOnly, dbSet]
        · rw [← he]
      · simp [part009_submitTTSRequest, hu, hc] at h
    · simp [part009_submitTTSRequest, hu] at h

/-- C9 witness: the queue `completed` handler on request 2 of `dbEx` emits
to the room of the stored creator id 3. -/
theorem c9_witness :
    ∃ r, dbEx.requests 2 = some r ∧
      (Emission.mk (creatorRoom 3) "tts-request" 2).channel = creatorRoom r.creatorId ∧
      (Emission.mk (creatorRoom 3) "tts-request" 2).ttsRequestId = 2 :=
  c9_emissions_keyed_by_stored_creator.2.1 dbEx ⟨2, "hi", "v1", true⟩ (jstr "x")
    ⟨creatorRoom 3, "tts-request", 2⟩ rfl

end SimpBack
